import Mathlib

/-!
Shallow embedding of the perfometer statistics library (src/src/lib.rs and
src/src/registry.rs).

Conventions of the embedding:
* Rust `u64` fields are modelled as `Nat`, with arithmetic reduced modulo
  `2 ^ 64` exactly where the Rust code performs wrapping arithmetic
  (`fetch_add`, and the release-mode semantics of `-` on `u64`).
* Rust `f64` fields (`mean`, `m2`) are modelled as exact rationals `ℚ`.
  Every divergence proved about them below is algebraic (a wrong formula),
  not a floating-point rounding artifact, so the idealisation is harmless.
* The atomics are collapsed to plain state under single-threaded,
  uncontended semantics: every load sees the current value and every
  compare-and-swap succeeds.  The retry loops of the source are modelled
  with explicit fuel: one function gives the effect of a single loop
  iteration, and a fuel-indexed runner returns `none` when the loop has
  not exited within the given number of iterations.  Since the source
  loops in `ElapsedCounter::end`, `ElapsedCounter::set_elapsed` and the
  `count == 0` arm of `IntervalCounter::increment` contain no `break` or
  `return`, the runners never produce `some`.
* The clock is passed in as an explicit `now : Nat` argument (the value
  the code obtained for the current time).
-/

namespace Perfometer

/-- The modulus of Rust `u64` arithmetic. -/
def U64MOD : Nat := 2 ^ 64

/-- Wrapping `u64` addition, the semantics of `AtomicU64::fetch_add`. -/
def wadd (a b : Nat) : Nat := (a + b) % U64MOD

/-- Wrapping `u64` subtraction, the release-mode semantics of `-` on `u64`
(`a` and `b` are assumed already reduced below `2 ^ 64`). -/
def wsub (a b : Nat) : Nat := (a + (U64MOD - b % U64MOD)) % U64MOD

/-- The scaling the source applies to durations before folding them into the
floating-point aggregates: `elapsed as f64 / 1e6f64`. -/
def scaled (x : Nat) : ℚ := (x : ℚ) / 1000000

/-- `Header { name: String }` from lib.rs; `Default` gives the empty name. -/
structure Header where
  name : String
deriving DecidableEq, Repr

/-- The `Default` instance derived for `Header`. -/
def Header.default : Header := ⟨""⟩

/-- `EventCounter { headers, event_count: AtomicU64 }`. -/
structure EventCounter where
  headers : Header
  event_count : Nat
deriving DecidableEq, Repr

/-- The derived `Default` instance: zeroed count, default header. -/
def EventCounter.default : EventCounter := ⟨Header.default, 0⟩

/-- `EventCounter::increment`: `self.event_count.fetch_add(1u64, SeqCst)`. -/
def EventCounter.increment (c : EventCounter) : EventCounter :=
  { c with event_count := wadd c.event_count 1 }

/-- `EventCounter::set_count`: `self.event_count.store(count, SeqCst)`. -/
def EventCounter.set_count (c : EventCounter) (count : Nat) : EventCounter :=
  { c with event_count := count % U64MOD }

/-- A sequence of `n` calls to `EventCounter::increment`. -/
def EventCounter.incrementN (c : EventCounter) : Nat → EventCounter
  | 0 => c
  | n + 1 => (EventCounter.incrementN c n).increment

/-- `ElapsedCounter` from lib.rs. -/
structure ElapsedCounter where
  headers : Header
  event_count : Nat
  time_start : Nat
  time_total : Nat
  time_least : Nat
  time_most : Nat
  mean : ℚ
  m2 : ℚ
deriving DecidableEq, Repr

/-- The derived `Default` instance: all fields zero. -/
def ElapsedCounter.default : ElapsedCounter := ⟨Header.default, 0, 0, 0, 0, 0, 0, 0⟩

/-- `ElapsedCounter::begin`: stores the current time (`ts.tv_sec`) into
`time_start`. -/
def ElapsedCounter.beginAt (c : ElapsedCounter) (now : Nat) : ElapsedCounter :=
  { c with time_start := now % U64MOD }

/-- One iteration of the `loop` in `ElapsedCounter::end` (lib.rs lines
73-115), under uncontended semantics (every compare-and-swap succeeds, so
none of the `continue` branches fire).  When `time_start == 0` the
iteration does nothing.  The source body uses an undefined variable `dt`
in its mean update (a compile error in the source); following the
identical update in `set_elapsed` it is modelled as `elapsed / 1e6`.
Note the iteration has no exit: the source `loop` contains no `break` or
`return` statement. -/
def ElapsedCounter.endIter (now : Nat) (c : ElapsedCounter) : ElapsedCounter :=
  if c.time_start > 0 then
    let elapsed := wsub now c.time_start
    let c1 := { c with time_start := 0 }
    let time_least := c1.time_least
    let c2 := if time_least > elapsed then { c1 with time_least := elapsed } else c1
    let c3 := if time_least = 0 ∨ time_least > elapsed then
        { c2 with event_count := wadd c2.event_count 1,
                  time_total := wadd c2.time_total elapsed }
      else c2
    let time_most := c3.time_most
    let c4 := if time_most < elapsed then { c3 with time_most := elapsed } else c3
    let mean := c4.mean
    let event_count := c4.event_count
    let dt := scaled elapsed
    let delta_interval := dt - mean
    let c5 := { c4 with mean := mean + delta_interval * (event_count : ℚ) }
    { c5 with m2 := c5.m2 + dt - mean }
  else c

/-- The `loop` of `ElapsedCounter::end`, run with `fuel` iterations:
`some` would be the state at a `break` or `return`, `none` means the loop
has not exited. -/
def ElapsedCounter.endLoop (now : Nat) : Nat → ElapsedCounter → Option ElapsedCounter
  | 0, _ => none
  | fuel + 1, c => ElapsedCounter.endLoop now fuel (ElapsedCounter.endIter now c)

/-- The straight-line prefix of `ElapsedCounter::set_elapsed` (lib.rs lines
118-129): for `elapsed > 0`, bump count and total, then conditionally
update the extremes.  The source compares the atomics themselves with
`elapsed` (a compile error); the evident loads are modelled. -/
def ElapsedCounter.setElapsedPre (c : ElapsedCounter) (elapsed : Nat) : ElapsedCounter :=
  let c1 := { c with event_count := wadd c.event_count 1,
                     time_total := wadd c.time_total elapsed }
  let c2 := if c1.time_least > elapsed then { c1 with time_least := elapsed } else c1
  if c2.time_most < elapsed then { c2 with time_most := elapsed } else c2

/-- One iteration of the mean/variance `loop` in `ElapsedCounter::set_elapsed`
(lib.rs lines 133-146), uncontended.  The source adds
`delta_interval * event_count` to the mean (where `event_count` is the
already-incremented count) and adds `dt - mean` to `m2`.  The loop has no
`break`: after both compare-and-swaps succeed it starts over. -/
def ElapsedCounter.setElapsedMeanIter (elapsed : Nat) (c : ElapsedCounter) : ElapsedCounter :=
  let dt := scaled elapsed
  let mean := c.mean
  let event_count := c.event_count
  let delta_interval := dt - mean
  let c1 := { c with mean := mean + delta_interval * (event_count : ℚ) }
  { c1 with m2 := c1.m2 + dt - mean }

/-- The mean/variance `loop` of `set_elapsed` run with `fuel` iterations. -/
def ElapsedCounter.setElapsedMeanLoop (elapsed : Nat) : Nat → ElapsedCounter → Option ElapsedCounter
  | 0, _ => none
  | fuel + 1, c =>
      ElapsedCounter.setElapsedMeanLoop elapsed fuel (ElapsedCounter.setElapsedMeanIter elapsed c)

/-- `ElapsedCounter::set_elapsed` as a whole: a no-op for `elapsed == 0`,
otherwise the straight-line prefix followed by the (non-exiting) mean
loop; the trailing `time_start.store(0)` of the source is unreachable. -/
def ElapsedCounter.set_elapsed (c : ElapsedCounter) (elapsed fuel : Nat) : Option ElapsedCounter :=
  if elapsed > 0 then
    ElapsedCounter.setElapsedMeanLoop elapsed fuel (c.setElapsedPre elapsed)
  else some c

/-- `ElapsedCounter::cancel`: `self.time_start.store(0, SeqCst)`. -/
def ElapsedCounter.cancel (c : ElapsedCounter) : ElapsedCounter :=
  { c with time_start := 0 }

/-- `IntervalCounter` from lib.rs. -/
structure IntervalCounter where
  headers : Header
  event_count : Nat
  time_event : Nat
  time_first : Nat
  time_last : Nat
  time_least : Nat
  time_most : Nat
  mean : ℚ
  m2 : ℚ
deriving DecidableEq, Repr

/-- The derived `Default` instance: all fields zero. -/
def IntervalCounter.default : IntervalCounter := ⟨Header.default, 0, 0, 0, 0, 0, 0, 0, 0⟩

/-- One iteration of the `loop` in `IntervalCounter::increment` (lib.rs
lines 179-208).  `Sum.inl` is a fall-through to the next iteration (the
`count == 0` arm has no `break`), `Sum.inr` is a `break` with the given
state.  In the catch-all arm the source overwrites `mean` with
`delta_interval / count` and `m2` with `delta_interval * (dt - mean)`. -/
def IntervalCounter.incrementIter (now : Nat) (c : IntervalCounter) :
    IntervalCounter ⊕ IntervalCounter :=
  match c.event_count with
  | 0 => Sum.inl { c with time_first := now }
  | 1 =>
      let last_time := wsub now c.time_last
      Sum.inr { c with time_least := last_time, time_most := last_time,
                       mean := scaled last_time, m2 := 0 }
  | co =>
      let interval := wsub now c.time_last
      let c1 := if interval < c.time_least then { c with time_least := interval } else c
      let c2 := if interval > c1.time_most then { c1 with time_most := interval } else c1
      let dt := scaled interval
      let delta_interval := dt - c2.mean
      let mean := delta_interval / (co : ℚ)
      Sum.inr { c2 with mean := mean, m2 := delta_interval * (dt - mean) }

/-- `IntervalCounter::increment`: run the loop with `fuel` iterations; on a
`break`, perform the trailing `time_last.store(now)` and
`event_count.fetch_add(1)`.  `none` means the loop has not exited. -/
def IntervalCounter.increment (now : Nat) : Nat → IntervalCounter → Option IntervalCounter
  | 0, _ => none
  | fuel + 1, c =>
      match IntervalCounter.incrementIter now c with
      | Sum.inl c1 => IntervalCounter.increment now fuel c1
      | Sum.inr c1 => some { c1 with time_last := now, event_count := wadd c1.event_count 1 }

/-- The blanket `impl<T: Default> Reset for T`: `*self = T::default()`,
instantiated at `EventCounter`.  `Counter::reset` just calls this. -/
def EventCounter.reset_it (_ : EventCounter) : EventCounter := EventCounter.default

/-- The blanket reset instantiated at `ElapsedCounter`. -/
def ElapsedCounter.reset_it (_ : ElapsedCounter) : ElapsedCounter := ElapsedCounter.default

/-- The blanket reset instantiated at `IntervalCounter`. -/
def IntervalCounter.reset_it (_ : IntervalCounter) : IntervalCounter := IntervalCounter.default

/-- A value of `Box<dyn Counter>`: one of the three concrete variants. -/
inductive CounterBox where
  | event : EventCounter → CounterBox
  | elapsed : ElapsedCounter → CounterBox
  | interval : IntervalCounter → CounterBox
deriving DecidableEq, Repr

/-- The header of the boxed counter. -/
def CounterBox.headerOf : CounterBox → Header
  | .event c => c.headers
  | .elapsed c => c.headers
  | .interval c => c.headers

/-- The type parameter `T` of `Entry::add_counter::<T>`. -/
inductive Variant where
  | event
  | elapsed
  | interval
deriving DecidableEq, Repr

/-- `T::default()` for the chosen variant. -/
def Variant.defaultBox : Variant → CounterBox
  | .event => .event EventCounter.default
  | .elapsed => .elapsed ElapsedCounter.default
  | .interval => .interval IntervalCounter.default

/-- The `HashMap<String, Box<dyn Counter>>` of registry.rs, modelled as an
association list in which `insert` prepends and lookup takes the first
match, preserving the overwrite-on-duplicate semantics of `HashMap`. -/
def lookupAssoc : List (String × CounterBox) → String → Option CounterBox
  | [], _ => none
  | (k, v) :: rest, name => if k = name then some v else lookupAssoc rest name

/-- `Entry(pub HashMap<String, Box<dyn Counter>>)`, the builder phase. -/
structure Entry where
  entries : List (String × CounterBox)
deriving DecidableEq, Repr

/-- `Entry::default()`: the empty mapping. -/
def Entry.default : Entry := ⟨[]⟩

/-- `Entry::add_counter::<T>(name)`:
`self.0.insert(name.to_owned(), Box::new(T::default()))`. -/
def Entry.add_counter (e : Entry) (v : Variant) (name : String) : Entry :=
  ⟨(name, v.defaultBox) :: e.entries⟩

/-- `Registry(pub Arc<HashMap<String, Box<dyn Counter>>>)`, frozen phase. -/
structure Registry where
  entries : List (String × CounterBox)
deriving DecidableEq, Repr

/-- `Entry::bind`: `Registry::from_entries(self.0)`, which rebuilds the map
from its entries unchanged and wraps it in an `Arc`. -/
def Entry.bind (e : Entry) : Registry := ⟨e.entries⟩

/-- `CounterNotFoundError { counter: String }` from registry.rs. -/
structure CounterNotFoundError where
  counter : String
deriving DecidableEq, Repr

/-- `Registry::count(name)`: looks the name up, maps absence to
`CounterNotFoundError { counter: name }`, and on success discards the
found counter and returns `Ok(())`. -/
def Registry.count (r : Registry) (name : String) : Except CounterNotFoundError Unit :=
  match lookupAssoc r.entries name with
  | some _ => Except.ok ()
  | none => Except.error ⟨name⟩

/-- Modelled from the spec: `lookup(name) -> Result<&Counter, CounterNotFound>`,
a lookup that returns the registered counter itself on success.  This is the
spec-side definition used only to contrast with `Registry.count`, which is
what the source provides. -/
def Registry.lookupSpec (r : Registry) (name : String) : Except CounterNotFoundError CounterBox :=
  match lookupAssoc r.entries name with
  | some c => Except.ok c
  | none => Except.error ⟨name⟩

/-- The aggregate triple of the spec: count, mean, sum of squared
deviations. -/
structure Agg where
  n : Nat
  m : ℚ
  s2 : ℚ
deriving DecidableEq, Repr

/-- Modelled from the spec: the per-observation Welford update.  Given the
previous aggregate and a new sample `x`: the count becomes `n + 1`, the
mean moves by `delta / (n + 1)`, and the accumulator gains
`delta * (x - newMean)`.  Used only to contrast with the update the source
actually performs. -/
def welfordStep (a : Agg) (x : ℚ) : Agg :=
  let n1 := a.n + 1
  let delta := x - a.m
  let m1 := a.m + delta / (n1 : ℚ)
  { n := n1, m := m1, s2 := a.s2 + delta * (x - m1) }

/-- The registry of the C7 scenario:
`add_counter::<EventCounter>("requests")` then `bind()`. -/
def demoRegistry : Registry :=
  (Entry.default.add_counter Variant.event "requests").bind

/-- A registry holding two distinct counters under two names, used to show
that `Registry.count` cannot be returning the registered counter: both
lookups succeed with the identical unit value although the counters
differ. -/
def twoRegistry : Registry :=
  ((Entry.default.add_counter Variant.event "a").add_counter Variant.elapsed "b").bind

/-! ### Helper lemmas -/

/-- The `loop` in `ElapsedCounter::end` contains no `break` or `return`,
so it never exits, whatever the state and however many iterations run. -/
theorem endLoop_eq_none (now : Nat) : ∀ (fuel : Nat) (c : ElapsedCounter),
    ElapsedCounter.endLoop now fuel c = none := by
  intro fuel
  induction fuel with
  | zero => intro c; rfl
  | succ n ih => intro c; exact ih (ElapsedCounter.endIter now c)

/-- The mean/variance `loop` in `ElapsedCounter::set_elapsed` likewise has
no exit. -/
theorem setElapsedMeanLoop_eq_none (elapsed : Nat) : ∀ (fuel : Nat) (c : ElapsedCounter),
    ElapsedCounter.setElapsedMeanLoop elapsed fuel c = none := by
  intro fuel
  induction fuel with
  | zero => intro c; rfl
  | succ n ih => intro c; exact ih (ElapsedCounter.setElapsedMeanIter elapsed c)

/-- While `event_count = 0`, each iteration of the `loop` in
`IntervalCounter::increment` takes the `0` arm, which has no `break` and
leaves the count at `0`, so the loop never exits. -/
theorem increment_stuck_at_zero (now : Nat) : ∀ (fuel : Nat) (c : IntervalCounter),
    c.event_count = 0 → IntervalCounter.increment now fuel c = none := by
  intro fuel
  induction fuel with
  | zero => intro c _; rfl
  | succ n ih =>
      intro c h
      have hstep : IntervalCounter.incrementIter now c =
          Sum.inl { c with time_first := now } := by
        unfold IntervalCounter.incrementIter
        rw [h]
      rw [IntervalCounter.increment, hstep]
      exact ih _ h

/-- After `n` calls to `increment` on a fresh `EventCounter`, the count is
`n` reduced modulo `2 ^ 64` (the wrap of `fetch_add`). -/
theorem incrementN_count : ∀ (n : Nat),
    (EventCounter.default.incrementN n).event_count = n % U64MOD := by
  intro n
  induction n with
  | zero => rfl
  | succ n ih =>
      show wadd (EventCounter.default.incrementN n).event_count 1 = (n + 1) % U64MOD
      rw [ih, wadd, Nat.add_mod n 1,
        Nat.mod_eq_of_lt (show 1 < U64MOD by norm_num [U64MOD])]

/-! ### Claim theorems -/

/-- C1: the claim states that `end()`, `set_elapsed()` and `increment()`
fold each observation in by Welford's method.  The code does not: in
`set_elapsed` the mean update multiplies the delta by the new count
instead of dividing by it, and the `m2` update adds the raw `dt - mean`
instead of `delta * (x - newMean)`.  Concretely, with a prior aggregate
of one sample of mean `2` (`dt` units) and a new sample with `dt = 4`,
the code moves the mean to `6` where Welford requires `3`. -/
theorem set_elapsed_update_is_not_welford :
    (ElapsedCounter.setElapsedMeanIter 4000000
        ⟨Header.default, 2, 0, 6000000, 2000000, 4000000, 2, 0⟩).mean = 6 ∧
    (welfordStep ⟨1, 2, 0⟩ 4).m = 3 ∧ (6 : ℚ) ≠ 3 := by
  refine ⟨?_, ?_, by norm_num⟩
  · norm_num [ElapsedCounter.setElapsedMeanIter, scaled]
  · norm_num [welfordStep]

/-- C2: the claim states that `begin()`, a clock advance of 100 units and
`end()` yield count 1, total 100, min 100, max 100, with `end` returning.
The code does set count 1, total 100 and max 100, but min stays 0: the
seeding test `time_least > elapsed` can never fire from the initial 0.
Moreover the `end` loop has no `break`, so `end()` never returns at
all. -/
theorem begin_end_scenario_diverges :
    (ElapsedCounter.endIter 101 (ElapsedCounter.default.beginAt 1)).event_count = 1 ∧
    (ElapsedCounter.endIter 101 (ElapsedCounter.default.beginAt 1)).time_total = 100 ∧
    (ElapsedCounter.endIter 101 (ElapsedCounter.default.beginAt 1)).time_most = 100 ∧
    (ElapsedCounter.endIter 101 (ElapsedCounter.default.beginAt 1)).time_least = 0 ∧
    ∀ fuel : Nat, ElapsedCounter.endLoop 101 fuel (ElapsedCounter.default.beginAt 1) = none := by
  refine ⟨by decide, by decide, by decide, by decide, fun fuel => endLoop_eq_none 101 fuel _⟩

/-- C3: the claim states that `end()` with no matching `begin()` is a no-op
that returns normally.  Half of this holds: each iteration leaves every
field unchanged when `time_start = 0`.  But the loop has no `break`, so
the call never returns. -/
theorem end_without_begin_spins :
    (∀ now : Nat, ElapsedCounter.endIter now ElapsedCounter.default = ElapsedCounter.default) ∧
    ∀ (now fuel : Nat), ElapsedCounter.endLoop now fuel ElapsedCounter.default = none := by
  exact ⟨fun now => rfl, fun now fuel => endLoop_eq_none now fuel _⟩

/-- C4: the claim states that every counter operation terminates, in
particular an uncontended `set_elapsed(v)` with `v > 0`.  The
mean/variance loop in `set_elapsed` has no `break`, so even with every
compare-and-swap succeeding the call spins forever: no amount of fuel
makes it return. -/
theorem set_elapsed_never_returns :
    ∀ fuel : Nat, ElapsedCounter.default.set_elapsed 5 fuel = none := by
  intro fuel
  show ElapsedCounter.set_elapsed ElapsedCounter.default 5 fuel = none
  rw [ElapsedCounter.set_elapsed]
  simp only [gt_iff_lt, Nat.zero_lt_succ, if_true]
  exact setElapsedMeanLoop_eq_none 5 fuel _

/-- C5: the claim states that the first `increment()` on a fresh
`IntervalCounter` records the event times and returns, the second seeds
min/max, and events at t = 0, 10, 25 give count 3, min 10, max 15.  The
`count == 0` arm of the loop has no `break` and the count is only bumped
after the loop, so the very first `increment()` spins forever and the
later behaviour is unreachable. -/
theorem first_increment_never_returns :
    ∀ (now fuel : Nat), IntervalCounter.increment now fuel IntervalCounter.default = none := by
  intro now fuel
  exact increment_stuck_at_zero now fuel IntervalCounter.default rfl

/-- C6 counterexample: the claim asserts the count after any sequence of
`N * K` increments is exactly `N * K`, but `fetch_add` wraps modulo
`2 ^ 64`: after `2 ^ 64` increments the count is 0. -/
theorem event_count_wraps_at_u64 :
    (EventCounter.default.incrementN (2 ^ 64)).event_count ≠ 2 ^ 64 := by
  rw [show (2 : Nat) ^ 64 = U64MOD from rfl, incrementN_count, Nat.mod_self]
  norm_num [U64MOD]

/-- C6 amended: for any `n < 2 ^ 64`, a sequence of `n` `increment()`
calls on a fresh `EventCounter` leaves the count exactly `n`; in
particular the concurrent scenario of `N` threads times `K` increments
gives `N * K` whenever `N * K < 2 ^ 64`. -/
theorem event_count_conserved (n : Nat) (h : n < U64MOD) :
    (EventCounter.default.incrementN n).event_count = n := by
  rw [incrementN_count]
  exact Nat.mod_eq_of_lt h

/-- Witness for C6 at `n = 5`, the concrete scenario of the spec. -/
theorem event_count_conserved_witness :
    5 < U64MOD ∧ (EventCounter.default.incrementN 5).event_count = 5 :=
  ⟨by norm_num [U64MOD], event_count_conserved 5 (by norm_num [U64MOD])⟩

/-- C7 counterexample: the claim says a successful lookup returns access to
the registered counter.  `Registry::count` returns `Ok(())`: on a registry
holding two different counters under "a" and "b", both lookups return the
identical value, although the registered counters differ — so the result
cannot carry the counter. -/
theorem count_does_not_return_counter :
    twoRegistry.count "a" = twoRegistry.count "b" ∧
    lookupAssoc twoRegistry.entries "a" ≠ lookupAssoc twoRegistry.entries "b" ∧
    demoRegistry.count "requests" = Except.ok () := by
  refine ⟨rfl, by decide, rfl⟩

/-- C7 amended: after `add_counter::<EventCounter>("requests")` and
`bind()`, looking up "requests" succeeds (with the unit value — the found
counter is discarded, not returned) and looking up "missing" fails with
`CounterNotFoundError` carrying "missing"; the total function never
panics. -/
theorem registry_count_ok_and_missing :
    demoRegistry.count "requests" = Except.ok () ∧
    demoRegistry.count "missing" = Except.error ⟨"missing"⟩ := by
  exact ⟨rfl, rfl⟩

/-- C8: the claim states that the timestamp subtraction in `end()` clamps
a would-be-negative duration to zero and never wraps.  The code uses a
plain `u64` subtraction: with `time_start = 5` and the clock at 3, the
elapsed value wraps to `2 ^ 64 - 2` and is folded into the total, instead
of being clamped to 0. -/
theorem end_elapsed_wraps_not_clamps :
    (ElapsedCounter.endIter 3 (ElapsedCounter.default.beginAt 5)).time_total = 2 ^ 64 - 2 ∧
    (2 ^ 64 - 2 : Nat) ≠ 0 := by
  refine ⟨by decide, by decide⟩

/-- C9: `reset` (the blanket `*self = T::default()`) leaves every variant
with exactly the field values of a freshly constructed default
instance. -/
theorem reset_restores_default (e : EventCounter) (el : ElapsedCounter) (i : IntervalCounter) :
    (e.reset_it.headers = EventCounter.default.headers ∧
     e.reset_it.event_count = EventCounter.default.event_count) ∧
    (el.reset_it.headers = ElapsedCounter.default.headers ∧
     el.reset_it.event_count = ElapsedCounter.default.event_count ∧
     el.reset_it.time_start = ElapsedCounter.default.time_start ∧
     el.reset_it.time_total = ElapsedCounter.default.time_total ∧
     el.reset_it.time_least = ElapsedCounter.default.time_least ∧
     el.reset_it.time_most = ElapsedCounter.default.time_most ∧
     el.reset_it.mean = ElapsedCounter.default.mean ∧
     el.reset_it.m2 = ElapsedCounter.default.m2) ∧
    i.reset_it = IntervalCounter.default := by
  exact ⟨⟨rfl, rfl⟩, ⟨rfl, rfl, rfl, rfl, rfl, rfl, rfl, rfl⟩, rfl⟩

/-- C10: `add_counter` registers the freshly defaulted counter under the
given name, and that counter's own header name is the empty string (the
`Default`), whatever name was registered. -/
theorem add_counter_registers_name_header_empty (e : Entry) (v : Variant) (name : String) :
    lookupAssoc (e.add_counter v name).entries name = some v.defaultBox ∧
    v.defaultBox.headerOf.name = "" := by
  constructor
  · show (if name = name then some v.defaultBox else lookupAssoc e.entries name) = _
    rw [if_pos rfl]
  · cases v <;> rfl

end Perfometer
